import Mathlib

/-!
Verification of the `parseAWSExports` configuration translator
(`parseAWSExports.ts`): the function converts the flat legacy configuration
object generated by the Amplify CLI (`aws-exports.js` /
`amplifyconfiguration.json`) into the nested `ResourcesConfig` shape.

The embedding models the legacy input as a record of optional, typed fields
(absent or `undefined` fields are `none`), mirrors the single
`hasOwnProperty('aws_project_region')` precondition, the per-section
translation blocks in their source order, the one diagnostic log site, and
the dynamic `TypeError` that property access on `undefined` raises
(`amazon_location_service.maps` when a `geo` block lacks
`amazon_location_service`).  JavaScript string truthiness (`''` falsy),
nullish coalescing (`??`), optional chaining (`?.`) and object spread are
translated explicitly at each use site.
-/

/-- A primitive JavaScript value, used for the `aws_project_region` field,
whose value is never read by the code (only its presence as an own property
is checked), so that present-but-falsy values are representable. -/
inductive JSPrim where
  | undef
  | null
  | boolean (b : Bool)
  | number (n : Int)
  | string (s : String)
deriving DecidableEq

/-- JavaScript truthiness of a primitive value: `undefined`, `null`,
`false`, `0` and `''` are falsy. -/
def JSPrim.truthy : JSPrim → Bool
  | .undef => false
  | .null => false
  | .boolean b => b
  | .number n => decide (n ≠ 0)
  | .string s => !s.isEmpty

/-- JS truthiness of an optional string value (`none` models
absent/`undefined`; the empty string is falsy). -/
def strTruthy : Option String → Bool
  | some s => !s.isEmpty
  | none => false

/-- Models `xs?.includes(v) ?? false` for an optional array of strings. -/
def optIncludes (xs : Option (List String)) (v : String) : Bool :=
  match xs with
  | some l => l.contains v
  | none => false

/-- Models lower-casing of a JavaScript string (`String.prototype.toLowerCase`),
character by character (basic-latin case mapping). -/
def jsToLower (s : String) : String :=
  ⟨s.data.map Char.toLower⟩

/-- Models assignment of a computed key on a JavaScript object
(`{ ...obj, [k]: v }` / `obj[k] = v`): an existing key keeps its position and
gets the new value, a fresh key is appended. -/
def objInsert (kvs : List (String × α)) (k : String) (v : α) : List (String × α) :=
  if (kvs.map Prod.fst).contains k then
    kvs.map fun p => if p.1 = k then (k, v) else p
  else
    kvs ++ [(k, v)]

/-- Models `Array.from(new Set(xs))` for strings: deduplicate keeping the
first occurrence of each element, preserving insertion order. -/
def setFromList (xs : List String) : List String :=
  xs.foldl (fun acc x => if acc.contains x then acc else acc ++ [x]) []

/-! ## Legacy input model -/

/-- `Notifications.{InAppMessaging,Push}.AWSPinpoint` legacy block. -/
structure PinpointChannel where
  appId : Option String := none
  region : Option String := none
deriving DecidableEq

/-- One legacy notification channel (`InAppMessaging` or `Push`). -/
structure NotifChannel where
  AWSPinpoint : Option PinpointChannel := none
deriving DecidableEq

/-- The legacy `Notifications` block. -/
structure NotificationsBlock where
  InAppMessaging : Option NotifChannel := none
  Push : Option NotifChannel := none
deriving DecidableEq

/-- One entry of the legacy `aws_bots_config` array. -/
structure BotConfig where
  name : String
deriving DecidableEq

/-- The legacy `aws_cognito_password_protection_settings` block. -/
structure PasswordProtectionSettings where
  passwordPolicyMinLength : Option Int := none
  passwordPolicyCharacters : Option (List String) := none
deriving DecidableEq

/-- The legacy `oauth` block.  `keys` models `Object.keys(oauth)` (the own
enumerable property names, in insertion order); the named fields are the
five properties the translator destructures. -/
structure OAuthBlock where
  keys : List String := []
  domain : Option String := none
  scope : Option (List String) := none
  redirectSignIn : Option String := none
  redirectSignOut : Option String := none
  responseType : Option String := none
deriving DecidableEq

/-- The legacy `geo.amazon_location_service` block. -/
structure AmazonLocationService where
  maps : Option String := none
  geofenceCollections : Option String := none
  search_indices : Option String := none
  region : Option String := none
deriving DecidableEq

/-- The legacy `geo` block.  `amazon_location_service = none` models a `geo`
object without that sub-object (reading `.maps` from it throws). -/
structure GeoBlock where
  amazon_location_service : Option AmazonLocationService := none
deriving DecidableEq

/-- `predictions.convert.speechGenerator.defaults` legacy block. -/
structure SpeechGeneratorDefaults where
  VoiceId : Option String := none
deriving DecidableEq

/-- `predictions.convert.speechGenerator` legacy block. -/
structure SpeechGeneratorBlock where
  defaults : Option SpeechGeneratorDefaults := none
deriving DecidableEq

/-- `predictions.convert` legacy block. -/
structure ConvertBlock where
  speechGenerator : Option SpeechGeneratorBlock := none
deriving DecidableEq

/-- The legacy `predictions` block (the fields the translator inspects). -/
structure PredictionsBlock where
  convert : Option ConvertBlock := none
deriving DecidableEq

/-- One entry of the legacy `aws_cloud_logic_custom` array. -/
structure RestApiEntry where
  name : String
  endpoint : Option String := none
  region : Option String := none
  service : Option String := none
deriving DecidableEq

/-- The legacy configuration object: the named fields destructured by
`parseAWSExports`, each `none` when absent or `undefined`.  The required
`aws_project_region` keeps its (never inspected) value so that own-property
presence is distinguished from truthiness.  Keys not named here are ignored
by the source (`Array.isArray(aws_bots_config)` corresponds to `isSome` of
the typed array field). -/
structure AWSExportsConfig where
  aws_project_region : Option JSPrim := none
  aws_appsync_apiKey : Option String := none
  aws_appsync_authenticationType : Option String := none
  aws_appsync_graphqlEndpoint : Option String := none
  aws_appsync_customEndpoint : Option String := none
  aws_appsync_region : Option String := none
  aws_bots_config : Option (List BotConfig) := none
  aws_cognito_identity_pool_id : Option String := none
  aws_cognito_sign_up_verification_method : Option String := none
  aws_cognito_mfa_configuration : Option String := none
  aws_cognito_mfa_types : Option (List String) := none
  aws_cognito_password_protection_settings : Option PasswordProtectionSettings := none
  aws_cognito_verification_mechanisms : Option (List String) := none
  aws_cognito_signup_attributes : Option (List String) := none
  aws_cognito_social_providers : Option (List String) := none
  aws_cognito_username_attributes : Option (List String) := none
  aws_mandatory_sign_in : Option String := none
  aws_mobile_analytics_app_id : Option String := none
  aws_mobile_analytics_app_region : Option String := none
  aws_user_files_s3_bucket : Option String := none
  aws_user_files_s3_bucket_region : Option String := none
  aws_user_files_s3_dangerously_connect_to_http_endpoint_for_testing : Option Bool := none
  aws_user_pools_id : Option String := none
  aws_user_pools_web_client_id : Option String := none
  geo : Option GeoBlock := none
  oauth : Option OAuthBlock := none
  predictions : Option PredictionsBlock := none
  aws_cloud_logic_custom : Option (List RestApiEntry) := none
  Notifications : Option NotificationsBlock := none
  modelIntrospection : Option String := none
deriving DecidableEq

/-! ## Output model (`ResourcesConfig`) -/

/-- Output `Analytics.Pinpoint`. -/
structure AnalyticsPinpoint where
  appId : String
  region : Option String := none
deriving DecidableEq

/-- Output `Analytics` section. -/
structure AnalyticsConfig where
  Pinpoint : AnalyticsPinpoint
deriving DecidableEq

/-- Output `Notifications.*.Pinpoint`. -/
structure NotificationsPinpoint where
  appId : Option String := none
  region : Option String := none
deriving DecidableEq

/-- Output `Notifications.InAppMessaging`. -/
structure InAppMessagingConfig where
  Pinpoint : NotificationsPinpoint
deriving DecidableEq

/-- Output `Notifications.PushNotification`. -/
structure PushNotificationConfig where
  Pinpoint : NotificationsPinpoint
deriving DecidableEq

/-- Output `Notifications` section. -/
structure NotificationsConfig where
  InAppMessaging : Option InAppMessagingConfig := none
  PushNotification : Option PushNotificationConfig := none
deriving DecidableEq

/-- Output `Interactions` section: `LexV1` is the object built by
`Object.fromEntries(aws_bots_config.map(bot => [bot.name, bot]))`. -/
structure InteractionsConfig where
  LexV1 : List (String × BotConfig)
deriving DecidableEq

/-- The value `authTypeMapping[aws_appsync_authenticationType]` can take:
a string from the object literal's own table, or — because JS property
access on an object literal consults its prototype chain — the value
inherited from `Object.prototype` for keys such as `toString` or
`constructor` (a function, or for `__proto__` the prototype object; every
such inherited value is truthy and not a string). -/
inductive AuthModeValue where
  | str (s : String)
  | inherited (name : String)
deriving DecidableEq

/-- Output `API.GraphQL` section.  `defaultAuthMode` holds whatever value
the lookup-with-fallback produced — normally a string, but an inherited
`Object.prototype` member when the legacy auth type names one. -/
structure GraphQLConfig where
  endpoint : String
  customEndpoint : Option String := none
  apiKey : Option String := none
  region : Option String := none
  defaultAuthMode : AuthModeValue
  modelIntrospection : Option String := none
deriving DecidableEq

/-- Output value of one `API.REST` entry. -/
structure RestEndpointConfig where
  endpoint : Option String := none
  service : Option String := none
  region : Option String := none
deriving DecidableEq

/-- Output `API` section. -/
structure APIConfig where
  GraphQL : Option GraphQLConfig := none
  REST : Option (List (String × RestEndpointConfig)) := none
deriving DecidableEq

/-- Output `Auth.Cognito.mfa`. -/
structure CognitoMFA where
  status : String
  totpEnabled : Bool
  smsEnabled : Bool
deriving DecidableEq

/-- Output `Auth.Cognito.passwordFormat`. -/
structure PasswordFormat where
  minLength : Option Int := none
  requireLowercase : Bool
  requireUppercase : Bool
  requireNumbers : Bool
  requireSpecialCharacters : Bool
deriving DecidableEq

/-- Output `loginWith.oauth` sub-object.  `providers = none` models the
absence of the `providers` key (it is only spread in when the legacy social
provider list is non-empty). -/
structure OAuthOutput where
  domain : Option String := none
  scopes : Option (List String) := none
  redirectSignIn : List String := []
  redirectSignOut : List String := []
  responseType : Option String := none
  providers : Option (List String) := none
deriving DecidableEq

/-- Output `Auth.Cognito.loginWith`. -/
structure LoginWith where
  username : Bool
  email : Bool
  phone : Bool
  oauth : Option OAuthOutput := none
deriving DecidableEq

/-- Output `Auth.Cognito`.  `userAttributes` is the object whose keys are the
lower-cased merged attribute names, every value being `{ required: true }`
(so only the key list is informative). -/
structure CognitoConfig where
  identityPoolId : Option String := none
  allowGuestAccess : Bool
  signUpVerificationMethod : Option String := none
  userAttributes : List (String × Bool) := []
  userPoolClientId : Option String := none
  userPoolId : Option String := none
  mfa : Option CognitoMFA := none
  passwordFormat : Option PasswordFormat := none
  loginWith : LoginWith
deriving DecidableEq

/-- Output `Auth` section. -/
structure AuthConfig where
  Cognito : CognitoConfig
deriving DecidableEq

/-- Output `Storage.S3`. -/
structure S3Config where
  bucket : String
  region : Option String := none
  dangerouslyConnectToHttpEndpointForTesting : Option Bool := none
deriving DecidableEq

/-- Output `Storage` section. -/
structure StorageConfig where
  S3 : S3Config
deriving DecidableEq

/-- Output `Geo.LocationService`. -/
structure LocationServiceConfig where
  maps : Option String := none
  geofenceCollections : Option String := none
  searchIndices : Option String := none
  region : Option String := none
deriving DecidableEq

/-- Output `Geo` section. -/
structure GeoConfig where
  LocationService : LocationServiceConfig
deriving DecidableEq

/-- Output `Predictions` section: either the legacy block passed through
verbatim, or (when a truthy `convert.speechGenerator.defaults.VoiceId` is
present) the same block with the nested `defaults` object replaced by
`{ voiceId }`. -/
inductive PredictionsOutput where
  | verbatim (p : PredictionsBlock)
  | rewritten (p : PredictionsBlock) (voiceId : String)
deriving DecidableEq

/-- The translated configuration: all top-level sections optional, absent by
default. -/
structure ResourcesConfig where
  Analytics : Option AnalyticsConfig := none
  Notifications : Option NotificationsConfig := none
  Interactions : Option InteractionsConfig := none
  API : Option APIConfig := none
  Auth : Option AuthConfig := none
  Storage : Option StorageConfig := none
  Geo : Option GeoConfig := none
  Predictions : Option PredictionsOutput := none
deriving DecidableEq

/-! ## Errors and logging -/

/-- The two kinds of exception the translator can raise: the structured
`AmplifyError` thrown by the explicit precondition check, and a dynamic
`TypeError` from property access on `undefined`. -/
inductive JSError where
  | amplifyError (name message recoverySuggestion : String)
  | typeError (message : String)
deriving DecidableEq

/-- The `AmplifyError` thrown when `aws_project_region` is not an own
property of the input. -/
def invalidConfigError : JSError :=
  JSError.amplifyError "InvalidParameterException" "Invalid config parameter."
    "Ensure passing the config object imported from  `amplifyconfiguration.json`."

/-- The `TypeError` raised by `amazon_location_service.maps` when a truthy
`geo` block has no `amazon_location_service` sub-object. -/
def geoTypeError : JSError :=
  JSError.typeError "Cannot read properties of undefined (reading maps)"

/-! ## The auth-type mapping table and helpers -/

/-- The own properties of the `authTypeMapping` object literal: a legacy
`aws_appsync_authenticationType` string to the v6 `defaultAuthMode` value;
`none` for keys the literal does not own. -/
def authTypeMapping : String → Option String
  | "API_KEY" => some "apiKey"
  | "AWS_IAM" => some "iam"
  | "AMAZON_COGNITO_USER_POOLS" => some "userPool"
  | "OPENID_CONNECT" => some "oidc"
  | "NONE" => some "none"
  | "AWS_LAMBDA" => some "lambda"
  | "LAMBDA" => some "lambda"
  | _ => none

/-- The own property names of `Object.prototype`, which JS property access
on the `authTypeMapping` object literal inherits.  Each holds a truthy
value: a built-in function, or for `__proto__` (an accessor) the prototype
object itself. -/
def objectPrototypeKeys : List String :=
  ["constructor", "hasOwnProperty", "isPrototypeOf", "propertyIsEnumerable",
   "toLocaleString", "toString", "valueOf", "__proto__",
   "__defineGetter__", "__defineSetter__", "__lookupGetter__", "__lookupSetter__"]

/-- `authTypeMapping[aws_appsync_authenticationType]`: ordinary JS property
access — an `undefined` key is coerced to the string `"undefined"`, an own
key of the literal yields its table string, a key the literal does not own
but `Object.prototype` does yields the inherited (truthy, non-string)
value, and anything else yields `undefined`. -/
def authTypeMappingGet (key : Option String) : Option AuthModeValue :=
  let k := match key with
    | some s => s
    | none => "undefined"
  match authTypeMapping k with
  | some s => some (AuthModeValue.str s)
  | none =>
      if objectPrototypeKeys.contains k then some (AuthModeValue.inherited k)
      else none

/-- Splitting a character list on a separator character: the empty list
yields one empty component, and every separator occurrence opens a new
component. -/
def splitOnCharList : List Char → Char → List (List Char)
  | [], _ => [[]]
  | c :: cs, sep =>
      match splitOnCharList cs sep with
      | [] => [[]]
      | h :: t => if c = sep then [] :: h :: t else (c :: h) :: t

/-- Models JavaScript `str.split(sep)` for a one-character separator: in
particular `''.split(',') = ['']` and `'a,b,c'.split(',') = ['a','b','c']`. -/
def jsSplit (s : String) (sep : Char) : List String :=
  (splitOnCharList s.data sep).map fun cs => ⟨cs⟩

/-- `getRedirectUrl`: `redirectStr?.split(',') ?? []` — a nullish redirect
value (`none`) yields `[]`; a present string is split on `','`. -/
def getRedirectUrl (redirectStr : Option String) : List String :=
  match redirectStr with
  | some s => jsSplit s ','
  | none => []

/-- `getOAuthConfig`: destructures the legacy `oauth` block; `scope` is
renamed to `scopes` verbatim, both redirect fields go through
`getRedirectUrl`.  The returned object has no `providers` key (`none`). -/
def getOAuthConfig (oauth : OAuthBlock) : OAuthOutput :=
  { domain := oauth.domain
    scopes := oauth.scope
    redirectSignIn := getRedirectUrl oauth.redirectSignIn
    redirectSignOut := getRedirectUrl oauth.redirectSignOut
    responseType := oauth.responseType }

/-- `parseSocialProviders`: each provider is lower-cased, then
`charAt(0).toUpperCase() + slice(1)` (modeled on the character list). -/
def parseSocialProviders (aws_cognito_social_providers : List String) : List String :=
  aws_cognito_social_providers.map fun provider =>
    match (jsToLower provider).data with
    | [] => ""
    | c :: cs => ⟨Char.toUpper c :: cs⟩

/-- `hasOAuthConfig`: `oauth ? Object.keys(oauth).length > 0 : false`. -/
def hasOAuthConfig (config : AWSExportsConfig) : Bool :=
  match config.oauth with
  | some o => decide (o.keys.length > 0)
  | none => false

/-- `hasSocialProviderConfig`:
`aws_cognito_social_providers ? aws_cognito_social_providers.length > 0 : false`. -/
def hasSocialProviderConfig (config : AWSExportsConfig) : Bool :=
  match config.aws_cognito_social_providers with
  | some ps => decide (ps.length > 0)
  | none => false

/-- `loginWithEmailEnabled`:
`aws_cognito_username_attributes?.includes('EMAIL') ?? false`. -/
def loginWithEmailEnabled (config : AWSExportsConfig) : Bool :=
  optIncludes config.aws_cognito_username_attributes "EMAIL"

/-- `loginWithPhoneEnabled`:
`aws_cognito_username_attributes?.includes('PHONE_NUMBER') ?? false`. -/
def loginWithPhoneEnabled (config : AWSExportsConfig) : Bool :=
  optIncludes config.aws_cognito_username_attributes "PHONE_NUMBER"

/-- The one diagnostic emitted by the translator: logged inside the API
block when `authTypeMapping[aws_appsync_authenticationType]` is falsy —
both the table strings and the inherited `Object.prototype` values are
truthy, so exactly when the access yields `undefined` (template literal
prints `undefined` for an absent value). -/
def invalidAuthTypeMessage (t : Option String) : String :=
  let shown := match t with
    | some s => s
    | none => "undefined"
  s!"Invalid authentication type {shown}. Falling back to IAM."

/-- `mfaConfig`: `undefined` unless `aws_cognito_mfa_configuration` is
truthy; `status` is the lower-cased legacy value
(`aws_cognito_mfa_configuration && aws_cognito_mfa_configuration.toLowerCase()`
evaluates to the lower-casing under the truthy gate). -/
def mfaConfig (config : AWSExportsConfig) : Option CognitoMFA :=
  match config.aws_cognito_mfa_configuration with
  | some s =>
      if s.isEmpty then none
      else some {
        status := jsToLower s
        totpEnabled := optIncludes config.aws_cognito_mfa_types "TOTP"
        smsEnabled := optIncludes config.aws_cognito_mfa_types "SMS" }
  | none => none

/-- `passwordFormatConfig`: `undefined` unless the legacy password
protection settings block is present. -/
def passwordFormatConfig (config : AWSExportsConfig) : Option PasswordFormat :=
  match config.aws_cognito_password_protection_settings with
  | some ps => some {
      minLength := ps.passwordPolicyMinLength
      requireLowercase := optIncludes ps.passwordPolicyCharacters "REQUIRES_LOWERCASE"
      requireUppercase := optIncludes ps.passwordPolicyCharacters "REQUIRES_UPPERCASE"
      requireNumbers := optIncludes ps.passwordPolicyCharacters "REQUIRES_NUMBERS"
      requireSpecialCharacters := optIncludes ps.passwordPolicyCharacters "REQUIRES_SYMBOLS" }
  | none => none

/-- `userAttributes`: the deduplicated union of the verification mechanisms
and signup attributes, reduced into an object keyed by the lower-cased
attribute name, every value `{ required: true }`. -/
def userAttributes (config : AWSExportsConfig) : List (String × Bool) :=
  let mergedUserAttributes := setFromList
    (config.aws_cognito_verification_mechanisms.getD [] ++
      config.aws_cognito_signup_attributes.getD [])
  mergedUserAttributes.foldl
    (fun attributes key => objInsert attributes (jsToLower key) true) []

/-- The `loginWith` object built by the Auth section (before any OAuth
attachment): `username` is true exactly when neither the email flag nor the
phone flag is enabled. -/
def loginWithOf (config : AWSExportsConfig) : LoginWith :=
  { username := !(loginWithEmailEnabled config || loginWithPhoneEnabled config)
    email := loginWithEmailEnabled config
    phone := loginWithPhoneEnabled config }

/-- The gate of the Auth section:
`aws_cognito_identity_pool_id || aws_user_pools_id` (string truthiness). -/
def authGate (config : AWSExportsConfig) : Bool :=
  strTruthy config.aws_cognito_identity_pool_id
    || strTruthy config.aws_user_pools_id

/-- The `Auth.Cognito` object assigned under the gate. -/
def authCognito (config : AWSExportsConfig) : CognitoConfig :=
  { identityPoolId := config.aws_cognito_identity_pool_id
    allowGuestAccess := config.aws_mandatory_sign_in != some "enable"
    signUpVerificationMethod := config.aws_cognito_sign_up_verification_method
    userAttributes := userAttributes config
    userPoolClientId := config.aws_user_pools_web_client_id
    userPoolId := config.aws_user_pools_id
    mfa := mfaConfig config
    passwordFormat := passwordFormatConfig config
    loginWith := loginWithOf config }

/-- The `oauth` object spread into `loginWith`:
`{ ...getOAuthConfig(oauth), ...(hasSocialProviderConfig && { providers }) }`. -/
def oauthValue (config : AWSExportsConfig) : OAuthOutput :=
  { getOAuthConfig (config.oauth.getD {}) with
    providers :=
      if hasSocialProviderConfig config then
        some (parseSocialProviders (config.aws_cognito_social_providers.getD []))
      else none }

/-- `Object.fromEntries(aws_bots_config.map(bot => [bot.name, bot]))`. -/
def lexV1Entries (bots : List BotConfig) : List (String × BotConfig) :=
  bots.foldl (fun acc bot => objInsert acc bot.name bot) []

/-- The `API.REST` object: the `aws_cloud_logic_custom` array reduced into a
map keyed by `name`, each value holding `endpoint` and, only when truthy,
`service` and `region`. -/
def restEntries (apis : List RestApiEntry) : List (String × RestEndpointConfig) :=
  apis.foldl
    (fun acc api =>
      objInsert acc api.name {
        endpoint := api.endpoint
        service := if strTruthy api.service then api.service else none
        region := if strTruthy api.region then api.region else none })
    []

/-- The debug log lines of one call: the API section logs exactly when its
gate is taken and the auth-type lookup misses. -/
def apiGraphQLLogs (config : AWSExportsConfig) : List String :=
  match config.aws_appsync_graphqlEndpoint with
  | some endpoint =>
      if endpoint.isEmpty then []
      else if (authTypeMappingGet config.aws_appsync_authenticationType).isNone then
        [invalidAuthTypeMessage config.aws_appsync_authenticationType]
      else []
  | none => []

/-! ## Per-section translation steps (source order) -/

/-- `// Analytics`: gated on truthiness of `aws_mobile_analytics_app_id`. -/
def analyticsStep (config : AWSExportsConfig) (amplifyConfig : ResourcesConfig) :
    ResourcesConfig :=
  match config.aws_mobile_analytics_app_id with
  | some appId =>
      if appId.isEmpty then amplifyConfig
      else
        { amplifyConfig with
          Analytics := some { Pinpoint := {
            appId := appId
            region := config.aws_mobile_analytics_app_region } } }
  | none => amplifyConfig

/-- `InAppMessaging?.AWSPinpoint` after
`const { InAppMessaging, Push } = Notifications ?? {}`. -/
def inAppPinpoint (config : AWSExportsConfig) : Option PinpointChannel :=
  (config.Notifications.getD {}).InAppMessaging.bind NotifChannel.AWSPinpoint

/-- `Push?.AWSPinpoint` after
`const { InAppMessaging, Push } = Notifications ?? {}`. -/
def pushPinpoint (config : AWSExportsConfig) : Option PinpointChannel :=
  (config.Notifications.getD {}).Push.bind NotifChannel.AWSPinpoint

/-- `// Notifications`: `const { InAppMessaging, Push } = Notifications ?? {}`;
the `InAppMessaging` branch assigns a fresh `Notifications` object, the
`Push` branch merges via spread (`{ ...amplifyConfig.Notifications, ... }`). -/
def notificationsStep (config : AWSExportsConfig) (amplifyConfig : ResourcesConfig) :
    ResourcesConfig :=
  if (inAppPinpoint config).isSome || (pushPinpoint config).isSome then
    let amplifyConfig :=
      match inAppPinpoint config with
      | some pp =>
          { amplifyConfig with
            Notifications := some { InAppMessaging := some { Pinpoint := {
              appId := pp.appId
              region := pp.region } } } }
      | none => amplifyConfig
    match pushPinpoint config with
    | some pp =>
        { amplifyConfig with
          Notifications := some
            { amplifyConfig.Notifications.getD {} with
              PushNotification := some { Pinpoint := {
                appId := pp.appId
                region := pp.region } } } }
    | none => amplifyConfig
  else amplifyConfig

/-- `// Interactions`: gated on `Array.isArray(aws_bots_config)` (`isSome` of
the typed array field); builds `Object.fromEntries` of `[bot.name, bot]`. -/
def interactionsStep (config : AWSExportsConfig) (amplifyConfig : ResourcesConfig) :
    ResourcesConfig :=
  match config.aws_bots_config with
  | some bots =>
      { amplifyConfig with Interactions := some { LexV1 := lexV1Entries bots } }
  | none => amplifyConfig

/-- `// API` (GraphQL): gated on truthiness of `aws_appsync_graphqlEndpoint`;
`defaultAuthMode` falls back to `'iam'` when the lookup misses (the mapped
values are all truthy, so `!defaultAuthMode` is exactly a lookup miss);
`modelIntrospection` is attached only when truthy.  The assignment replaces
`amplifyConfig.API` wholly. -/
def graphQLValue (config : AWSExportsConfig) (endpoint : String) : GraphQLConfig :=
  let defaultAuthMode := authTypeMappingGet config.aws_appsync_authenticationType
  let graphQL : GraphQLConfig := {
    endpoint := endpoint
    customEndpoint := config.aws_appsync_customEndpoint
    apiKey := config.aws_appsync_apiKey
    region := config.aws_appsync_region
    defaultAuthMode := defaultAuthMode.getD (AuthModeValue.str "iam") }
  match config.modelIntrospection with
  | some mi => if mi.isEmpty then graphQL else { graphQL with modelIntrospection := some mi }
  | none => graphQL

/-- The API section assignment itself (`amplifyConfig.API = { GraphQL }`
replaces any previous `API` value). -/
def apiGraphQLStep (config : AWSExportsConfig) (amplifyConfig : ResourcesConfig) :
    ResourcesConfig :=
  match config.aws_appsync_graphqlEndpoint with
  | some endpoint =>
      if endpoint.isEmpty then amplifyConfig
      else { amplifyConfig with API := some { GraphQL := some (graphQLValue config endpoint) } }
  | none => amplifyConfig

/-- `// Auth`: `mfaConfig`, `passwordFormatConfig`, the merged, deduplicated
user attributes, the login flags, and the `Auth.Cognito` assignment gated on
truthiness of `aws_cognito_identity_pool_id || aws_user_pools_id`. -/
def authStep (config : AWSExportsConfig) (amplifyConfig : ResourcesConfig) :
    ResourcesConfig :=
  if authGate config then
    { amplifyConfig with Auth := some { Cognito := authCognito config } }
  else amplifyConfig

/-- The OAuth attachment: when an `Auth` section exists and `hasOAuthConfig`,
`loginWith` is spread-merged with a fresh `oauth` key holding
`getOAuthConfig(oauth)` plus, when `hasSocialProviderConfig`, a `providers`
key. -/
def oauthStep (config : AWSExportsConfig) (amplifyConfig : ResourcesConfig) :
    ResourcesConfig :=
  match amplifyConfig.Auth with
  | some auth =>
      if hasOAuthConfig config then
        { amplifyConfig with
          Auth := some { Cognito := { auth.Cognito with
            loginWith := { auth.Cognito.loginWith with
              oauth := some (oauthValue config) } } } }
      else amplifyConfig
  | none => amplifyConfig

/-- `// Storage`: gated on truthiness of `aws_user_files_s3_bucket`. -/
def storageStep (config : AWSExportsConfig) (amplifyConfig : ResourcesConfig) :
    ResourcesConfig :=
  match config.aws_user_files_s3_bucket with
  | some bucket =>
      if bucket.isEmpty then amplifyConfig
      else
        { amplifyConfig with
          Storage := some { S3 := {
            bucket := bucket
            region := config.aws_user_files_s3_bucket_region
            dangerouslyConnectToHttpEndpointForTesting :=
              config.aws_user_files_s3_dangerously_connect_to_http_endpoint_for_testing } } }
  | none => amplifyConfig

/-- `// Geo`: gated on truthiness of `geo`; destructures
`amazon_location_service` and reads its properties without a guard, so a
`geo` block lacking that sub-object raises a `TypeError`. -/
def geoStep (config : AWSExportsConfig) (amplifyConfig : ResourcesConfig) :
    Except JSError ResourcesConfig :=
  match config.geo with
  | some g =>
      match g.amazon_location_service with
      | some als =>
          Except.ok
            { amplifyConfig with
              Geo := some { LocationService := {
                maps := als.maps
                geofenceCollections := als.geofenceCollections
                searchIndices := als.search_indices
                region := als.region } } }
      | none => Except.error geoTypeError
  | none => Except.ok amplifyConfig

/-- `// REST API`: gated on truthiness of `aws_cloud_logic_custom` (an array
is always truthy); `API` is spread-merged (`{ ...amplifyConfig.API, REST }`),
each entry keyed by `name`, with `service` and `region` keys only when
truthy. -/
def restStep (config : AWSExportsConfig) (amplifyConfig : ResourcesConfig) :
    ResourcesConfig :=
  match config.aws_cloud_logic_custom with
  | some apis =>
      { amplifyConfig with
        API := some
          { amplifyConfig.API.getD {} with REST := some (restEntries apis) } }
  | none => amplifyConfig

/-- `// Predictions`: gated on truthiness of `predictions`; when
`predictions?.convert?.speechGenerator?.defaults?.VoiceId` is truthy the
nested `defaults` object is replaced by `{ voiceId }`, otherwise the block
passes through verbatim. -/
def predictionsStep (config : AWSExportsConfig) (amplifyConfig : ResourcesConfig) :
    ResourcesConfig :=
  match config.predictions with
  | some p =>
      let voiceId :=
        (((p.convert.bind ConvertBlock.speechGenerator).bind
          SpeechGeneratorBlock.defaults).getD {}).VoiceId
      match voiceId with
      | some v =>
          if v.isEmpty then
            { amplifyConfig with Predictions := some (PredictionsOutput.verbatim p) }
          else
            { amplifyConfig with Predictions := some (PredictionsOutput.rewritten p v) }
      | none =>
          { amplifyConfig with Predictions := some (PredictionsOutput.verbatim p) }
  | none => amplifyConfig

/-- The sections built before the `geo` block, in source order, starting
from the empty `amplifyConfig`. -/
def preGeo (config : AWSExportsConfig) : ResourcesConfig :=
  storageStep config
    (oauthStep config
      (authStep config
        (apiGraphQLStep config
          (interactionsStep config
            (notificationsStep config
              (analyticsStep config {}))))))

/-- `parseAWSExports`: throws `invalidConfigError` unless
`aws_project_region` is an own property of the input (regardless of its
value), then runs the section blocks in source order.  The second component
collects the diagnostic log lines emitted during the call. -/
def parseAWSExports (config : AWSExportsConfig) :
    Except JSError ResourcesConfig × List String :=
  if config.aws_project_region.isNone then
    (Except.error invalidConfigError, [])
  else
    let logs := apiGraphQLLogs config
    match geoStep config (preGeo config) with
    | Except.error e => (Except.error e, logs)
    | Except.ok amplifyConfig =>
        (Except.ok (predictionsStep config (restStep config amplifyConfig)), logs)
/-! ## Frame lemmas: each section step leaves the other sections unchanged -/

@[simp] theorem analyticsStep_Notifications (c : AWSExportsConfig) (a : ResourcesConfig) :
    (analyticsStep c a).Notifications = a.Notifications := by
  unfold analyticsStep
  try dsimp only
  repeat' split
  all_goals rfl

@[simp] theorem analyticsStep_Interactions (c : AWSExportsConfig) (a : ResourcesConfig) :
    (analyticsStep c a).Interactions = a.Interactions := by
  unfold analyticsStep
  try dsimp only
  repeat' split
  all_goals rfl

@[simp] theorem analyticsStep_API (c : AWSExportsConfig) (a : ResourcesConfig) :
    (analyticsStep c a).API = a.API := by
  unfold analyticsStep
  try dsimp only
  repeat' split
  all_goals rfl

@[simp] theorem analyticsStep_Auth (c : AWSExportsConfig) (a : ResourcesConfig) :
    (analyticsStep c a).Auth = a.Auth := by
  unfold analyticsStep
  try dsimp only
  repeat' split
  all_goals rfl

@[simp] theorem analyticsStep_Storage (c : AWSExportsConfig) (a : ResourcesConfig) :
    (analyticsStep c a).Storage = a.Storage := by
  unfold analyticsStep
  try dsimp only
  repeat' split
  all_goals rfl

@[simp] theorem analyticsStep_Geo (c : AWSExportsConfig) (a : ResourcesConfig) :
    (analyticsStep c a).Geo = a.Geo := by
  unfold analyticsStep
  try dsimp only
  repeat' split
  all_goals rfl

@[simp] theorem analyticsStep_Predictions (c : AWSExportsConfig) (a : ResourcesConfig) :
    (analyticsStep c a).Predictions = a.Predictions := by
  unfold analyticsStep
  try dsimp only
  repeat' split
  all_goals rfl

@[simp] theorem notificationsStep_Analytics (c : AWSExportsConfig) (a : ResourcesConfig) :
    (notificationsStep c a).Analytics = a.Analytics := by
  unfold notificationsStep
  try dsimp only
  repeat' split
  all_goals rfl

@[simp] theorem notificationsStep_Interactions (c : AWSExportsConfig) (a : ResourcesConfig) :
    (notificationsStep c a).Interactions = a.Interactions := by
  unfold notificationsStep
  try dsimp only
  repeat' split
  all_goals rfl

@[simp] theorem notificationsStep_API (c : AWSExportsConfig) (a : ResourcesConfig) :
    (notificationsStep c a).API = a.API := by
  unfold notificationsStep
  try dsimp only
  repeat' split
  all_goals rfl

@[simp] theorem notificationsStep_Auth (c : AWSExportsConfig) (a : ResourcesConfig) :
    (notificationsStep c a).Auth = a.Auth := by
  unfold notificationsStep
  try dsimp only
  repeat' split
  all_goals rfl

@[simp] theorem notificationsStep_Storage (c : AWSExportsConfig) (a : ResourcesConfig) :
    (notificationsStep c a).Storage = a.Storage := by
  unfold notificationsStep
  try dsimp only
  repeat' split
  all_goals rfl

@[simp] theorem notificationsStep_Geo (c : AWSExportsConfig) (a : ResourcesConfig) :
    (notificationsStep c a).Geo = a.Geo := by
  unfold notificationsStep
  try dsimp only
  repeat' split
  all_goals rfl

@[simp] theorem notificationsStep_Predictions (c : AWSExportsConfig) (a : ResourcesConfig) :
    (notificationsStep c a).Predictions = a.Predictions := by
  unfold notificationsStep
  try dsimp only
  repeat' split
  all_goals rfl

@[simp] theorem interactionsStep_Analytics (c : AWSExportsConfig) (a : ResourcesConfig) :
    (interactionsStep c a).Analytics = a.Analytics := by
  unfold interactionsStep
  try dsimp only
  repeat' split
  all_goals rfl

@[simp] theorem interactionsStep_Notifications (c : AWSExportsConfig) (a : ResourcesConfig) :
    (interactionsStep c a).Notifications = a.Notifications := by
  unfold interactionsStep
  try dsimp only
  repeat' split
  all_goals rfl

@[simp] theorem interactionsStep_API (c : AWSExportsConfig) (a : ResourcesConfig) :
    (interactionsStep c a).API = a.API := by
  unfold interactionsStep
  try dsimp only
  repeat' split
  all_goals rfl

@[simp] theorem interactionsStep_Auth (c : AWSExportsConfig) (a : ResourcesConfig) :
    (interactionsStep c a).Auth = a.Auth := by
  unfold interactionsStep
  try dsimp only
  repeat' split
  all_goals rfl

@[simp] theorem interactionsStep_Storage (c : AWSExportsConfig) (a : ResourcesConfig) :
    (interactionsStep c a).Storage = a.Storage := by
  unfold interactionsStep
  try dsimp only
  repeat' split
  all_goals rfl

@[simp] theorem interactionsStep_Geo (c : AWSExportsConfig) (a : ResourcesConfig) :
    (interactionsStep c a).Geo = a.Geo := by
  unfold interactionsStep
  try dsimp only
  repeat' split
  all_goals rfl

@[simp] theorem interactionsStep_Predictions (c : AWSExportsConfig) (a : ResourcesConfig) :
    (interactionsStep c a).Predictions = a.Predictions := by
  unfold interactionsStep
  try dsimp only
  repeat' split
  all_goals rfl

@[simp] theorem apiGraphQLStep_Analytics (c : AWSExportsConfig) (a : ResourcesConfig) :
    (apiGraphQLStep c a).Analytics = a.Analytics := by
  unfold apiGraphQLStep
  try dsimp only
  repeat' split
  all_goals rfl

@[simp] theorem apiGraphQLStep_Notifications (c : AWSExportsConfig) (a : ResourcesConfig) :
    (apiGraphQLStep c a).Notifications = a.Notifications := by
  unfold apiGraphQLStep
  try dsimp only
  repeat' split
  all_goals rfl

@[simp] theorem apiGraphQLStep_Interactions (c : AWSExportsConfig) (a : ResourcesConfig) :
    (apiGraphQLStep c a).Interactions = a.Interactions := by
  unfold apiGraphQLStep
  try dsimp only
  repeat' split
  all_goals rfl

@[simp] theorem apiGraphQLStep_Auth (c : AWSExportsConfig) (a : ResourcesConfig) :
    (apiGraphQLStep c a).Auth = a.Auth := by
  unfold apiGraphQLStep
  try dsimp only
  repeat' split
  all_goals rfl

@[simp] theorem apiGraphQLStep_Storage (c : AWSExportsConfig) (a : ResourcesConfig) :
    (apiGraphQLStep c a).Storage = a.Storage := by
  unfold apiGraphQLStep
  try dsimp only
  repeat' split
  all_goals rfl

@[simp] theorem apiGraphQLStep_Geo (c : AWSExportsConfig) (a : ResourcesConfig) :
    (apiGraphQLStep c a).Geo = a.Geo := by
  unfold apiGraphQLStep
  try dsimp only
  repeat' split
  all_goals rfl

@[simp] theorem apiGraphQLStep_Predictions (c : AWSExportsConfig) (a : ResourcesConfig) :
    (apiGraphQLStep c a).Predictions = a.Predictions := by
  unfold apiGraphQLStep
  try dsimp only
  repeat' split
  all_goals rfl

@[simp] theorem authStep_Analytics (c : AWSExportsConfig) (a : ResourcesConfig) :
    (authStep c a).Analytics = a.Analytics := by
  unfold authStep
  try dsimp only
  repeat' split
  all_goals rfl

@[simp] theorem authStep_Notifications (c : AWSExportsConfig) (a : ResourcesConfig) :
    (authStep c a).Notifications = a.Notifications := by
  unfold authStep
  try dsimp only
  repeat' split
  all_goals rfl

@[simp] theorem authStep_Interactions (c : AWSExportsConfig) (a : ResourcesConfig) :
    (authStep c a).Interactions = a.Interactions := by
  unfold authStep
  try dsimp only
  repeat' split
  all_goals rfl

@[simp] theorem authStep_API (c : AWSExportsConfig) (a : ResourcesConfig) :
    (authStep c a).API = a.API := by
  unfold authStep
  try dsimp only
  repeat' split
  all_goals rfl

@[simp] theorem authStep_Storage (c : AWSExportsConfig) (a : ResourcesConfig) :
    (authStep c a).Storage = a.Storage := by
  unfold authStep
  try dsimp only
  repeat' split
  all_goals rfl

@[simp] theorem authStep_Geo (c : AWSExportsConfig) (a : ResourcesConfig) :
    (authStep c a).Geo = a.Geo := by
  unfold authStep
  try dsimp only
  repeat' split
  all_goals rfl

@[simp] theorem authStep_Predictions (c : AWSExportsConfig) (a : ResourcesConfig) :
    (authStep c a).Predictions = a.Predictions := by
  unfold authStep
  try dsimp only
  repeat' split
  all_goals rfl

@[simp] theorem oauthStep_Analytics (c : AWSExportsConfig) (a : ResourcesConfig) :
    (oauthStep c a).Analytics = a.Analytics := by
  unfold oauthStep
  try dsimp only
  repeat' split
  all_goals rfl

@[simp] theorem oauthStep_Notifications (c : AWSExportsConfig) (a : ResourcesConfig) :
    (oauthStep c a).Notifications = a.Notifications := by
  unfold oauthStep
  try dsimp only
  repeat' split
  all_goals rfl

@[simp] theorem oauthStep_Interactions (c : AWSExportsConfig) (a : ResourcesConfig) :
    (oauthStep c a).Interactions = a.Interactions := by
  unfold oauthStep
  try dsimp only
  repeat' split
  all_goals rfl

@[simp] theorem oauthStep_API (c : AWSExportsConfig) (a : ResourcesConfig) :
    (oauthStep c a).API = a.API := by
  unfold oauthStep
  try dsimp only
  repeat' split
  all_goals rfl

@[simp] theorem oauthStep_Storage (c : AWSExportsConfig) (a : ResourcesConfig) :
    (oauthStep c a).Storage = a.Storage := by
  unfold oauthStep
  try dsimp only
  repeat' split
  all_goals rfl

@[simp] theorem oauthStep_Geo (c : AWSExportsConfig) (a : ResourcesConfig) :
    (oauthStep c a).Geo = a.Geo := by
  unfold oauthStep
  try dsimp only
  repeat' split
  all_goals rfl

@[simp] theorem oauthStep_Predictions (c : AWSExportsConfig) (a : ResourcesConfig) :
    (oauthStep c a).Predictions = a.Predictions := by
  unfold oauthStep
  try dsimp only
  repeat' split
  all_goals rfl

@[simp] theorem storageStep_Analytics (c : AWSExportsConfig) (a : ResourcesConfig) :
    (storageStep c a).Analytics = a.Analytics := by
  unfold storageStep
  try dsimp only
  repeat' split
  all_goals rfl

@[simp] theorem storageStep_Notifications (c : AWSExportsConfig) (a : ResourcesConfig) :
    (storageStep c a).Notifications = a.Notifications := by
  unfold storageStep
  try dsimp only
  repeat' split
  all_goals rfl

@[simp] theorem storageStep_Interactions (c : AWSExportsConfig) (a : ResourcesConfig) :
    (storageStep c a).Interactions = a.Interactions := by
  unfold storageStep
  try dsimp only
  repeat' split
  all_goals rfl

@[simp] theorem storageStep_API (c : AWSExportsConfig) (a : ResourcesConfig) :
    (storageStep c a).API = a.API := by
  unfold storageStep
  try dsimp only
  repeat' split
  all_goals rfl

@[simp] theorem storageStep_Auth (c : AWSExportsConfig) (a : ResourcesConfig) :
    (storageStep c a).Auth = a.Auth := by
  unfold storageStep
  try dsimp only
  repeat' split
  all_goals rfl

@[simp] theorem storageStep_Geo (c : AWSExportsConfig) (a : ResourcesConfig) :
    (storageStep c a).Geo = a.Geo := by
  unfold storageStep
  try dsimp only
  repeat' split
  all_goals rfl

@[simp] theorem storageStep_Predictions (c : AWSExportsConfig) (a : ResourcesConfig) :
    (storageStep c a).Predictions = a.Predictions := by
  unfold storageStep
  try dsimp only
  repeat' split
  all_goals rfl

@[simp] theorem restStep_Analytics (c : AWSExportsConfig) (a : ResourcesConfig) :
    (restStep c a).Analytics = a.Analytics := by
  unfold restStep
  try dsimp only
  repeat' split
  all_goals rfl

@[simp] theorem restStep_Notifications (c : AWSExportsConfig) (a : ResourcesConfig) :
    (restStep c a).Notifications = a.Notifications := by
  unfold restStep
  try dsimp only
  repeat' split
  all_goals rfl

@[simp] theorem restStep_Interactions (c : AWSExportsConfig) (a : ResourcesConfig) :
    (restStep c a).Interactions = a.Interactions := by
  unfold restStep
  try dsimp only
  repeat' split
  all_goals rfl

@[simp] theorem restStep_Auth (c : AWSExportsConfig) (a : ResourcesConfig) :
    (restStep c a).Auth = a.Auth := by
  unfold restStep
  try dsimp only
  repeat' split
  all_goals rfl

@[simp] theorem restStep_Storage (c : AWSExportsConfig) (a : ResourcesConfig) :
    (restStep c a).Storage = a.Storage := by
  unfold restStep
  try dsimp only
  repeat' split
  all_goals rfl

@[simp] theorem restStep_Geo (c : AWSExportsConfig) (a : ResourcesConfig) :
    (restStep c a).Geo = a.Geo := by
  unfold restStep
  try dsimp only
  repeat' split
  all_goals rfl

@[simp] theorem restStep_Predictions (c : AWSExportsConfig) (a : ResourcesConfig) :
    (restStep c a).Predictions = a.Predictions := by
  unfold restStep
  try dsimp only
  repeat' split
  all_goals rfl

@[simp] theorem predictionsStep_Analytics (c : AWSExportsConfig) (a : ResourcesConfig) :
    (predictionsStep c a).Analytics = a.Analytics := by
  unfold predictionsStep
  try dsimp only
  repeat' split
  all_goals rfl

@[simp] theorem predictionsStep_Notifications (c : AWSExportsConfig) (a : ResourcesConfig) :
    (predictionsStep c a).Notifications = a.Notifications := by
  unfold predictionsStep
  try dsimp only
  repeat' split
  all_goals rfl

@[simp] theorem predictionsStep_Interactions (c : AWSExportsConfig) (a : ResourcesConfig) :
    (predictionsStep c a).Interactions = a.Interactions := by
  unfold predictionsStep
  try dsimp only
  repeat' split
  all_goals rfl

@[simp] theorem predictionsStep_API (c : AWSExportsConfig) (a : ResourcesConfig) :
    (predictionsStep c a).API = a.API := by
  unfold predictionsStep
  try dsimp only
  repeat' split
  all_goals rfl

@[simp] theorem predictionsStep_Auth (c : AWSExportsConfig) (a : ResourcesConfig) :
    (predictionsStep c a).Auth = a.Auth := by
  unfold predictionsStep
  try dsimp only
  repeat' split
  all_goals rfl

@[simp] theorem predictionsStep_Storage (c : AWSExportsConfig) (a : ResourcesConfig) :
    (predictionsStep c a).Storage = a.Storage := by
  unfold predictionsStep
  try dsimp only
  repeat' split
  all_goals rfl

@[simp] theorem predictionsStep_Geo (c : AWSExportsConfig) (a : ResourcesConfig) :
    (predictionsStep c a).Geo = a.Geo := by
  unfold predictionsStep
  try dsimp only
  repeat' split
  all_goals rfl

/-! ## Characterizations of the section each step writes -/

theorem analyticsStep_Analytics (c : AWSExportsConfig) (a : ResourcesConfig) :
    (analyticsStep c a).Analytics =
      match c.aws_mobile_analytics_app_id with
      | some appId =>
          if appId.isEmpty then a.Analytics
          else some { Pinpoint := {
            appId := appId
            region := c.aws_mobile_analytics_app_region } }
      | none => a.Analytics := by
  unfold analyticsStep
  repeat' split
  all_goals rfl

theorem notificationsStep_Notifications (c : AWSExportsConfig) (a : ResourcesConfig) :
    (notificationsStep c a).Notifications =
      match inAppPinpoint c, pushPinpoint c with
      | some pp1, some pp2 =>
          some {
            InAppMessaging := some { Pinpoint := { appId := pp1.appId, region := pp1.region } }
            PushNotification := some { Pinpoint := { appId := pp2.appId, region := pp2.region } } }
      | some pp1, none =>
          some {
            InAppMessaging := some { Pinpoint := { appId := pp1.appId, region := pp1.region } }
            PushNotification := none }
      | none, some pp2 =>
          some { a.Notifications.getD {} with
            PushNotification := some { Pinpoint := { appId := pp2.appId, region := pp2.region } } }
      | none, none => a.Notifications := by
  unfold notificationsStep
  rcases h1 : inAppPinpoint c with _ | pp1 <;> rcases h2 : pushPinpoint c with _ | pp2 <;>
    simp [h1, h2]

theorem interactionsStep_Interactions (c : AWSExportsConfig) (a : ResourcesConfig) :
    (interactionsStep c a).Interactions =
      match c.aws_bots_config with
      | some bots => some { LexV1 := lexV1Entries bots }
      | none => a.Interactions := by
  unfold interactionsStep
  repeat' split
  all_goals rfl

theorem apiGraphQLStep_API (c : AWSExportsConfig) (a : ResourcesConfig) :
    (apiGraphQLStep c a).API =
      match c.aws_appsync_graphqlEndpoint with
      | some endpoint =>
          if endpoint.isEmpty then a.API
          else some { GraphQL := some (graphQLValue c endpoint), REST := none }
      | none => a.API := by
  unfold apiGraphQLStep
  repeat' split
  all_goals rfl

theorem graphQLValue_defaultAuthMode (c : AWSExportsConfig) (endpoint : String) :
    (graphQLValue c endpoint).defaultAuthMode =
      (authTypeMappingGet c.aws_appsync_authenticationType).getD (AuthModeValue.str "iam") := by
  unfold graphQLValue
  try dsimp only
  repeat' split
  all_goals rfl

theorem authStep_Auth (c : AWSExportsConfig) (a : ResourcesConfig) :
    (authStep c a).Auth =
      if authGate c then some { Cognito := authCognito c } else a.Auth := by
  unfold authStep
  split
  all_goals rfl

theorem oauthStep_Auth (c : AWSExportsConfig) (a : ResourcesConfig) :
    (oauthStep c a).Auth =
      match a.Auth with
      | some auth =>
          if hasOAuthConfig c then
            some { Cognito := { auth.Cognito with
              loginWith := { auth.Cognito.loginWith with
                oauth := some (oauthValue c) } } }
          else some auth
      | none => none := by
  unfold oauthStep
  rcases h : a.Auth with _ | auth
  · simp [h]
  · simp only [h]
    split
    · rfl
    · exact h

theorem storageStep_Storage (c : AWSExportsConfig) (a : ResourcesConfig) :
    (storageStep c a).Storage =
      match c.aws_user_files_s3_bucket with
      | some bucket =>
          if bucket.isEmpty then a.Storage
          else some { S3 := {
            bucket := bucket
            region := c.aws_user_files_s3_bucket_region
            dangerouslyConnectToHttpEndpointForTesting :=
              c.aws_user_files_s3_dangerously_connect_to_http_endpoint_for_testing } }
      | none => a.Storage := by
  unfold storageStep
  repeat' split
  all_goals rfl

theorem restStep_API (c : AWSExportsConfig) (a : ResourcesConfig) :
    (restStep c a).API =
      match c.aws_cloud_logic_custom with
      | some apis => some { a.API.getD {} with REST := some (restEntries apis) }
      | none => a.API := by
  unfold restStep
  repeat' split
  all_goals rfl

theorem predictionsStep_Predictions (c : AWSExportsConfig) (a : ResourcesConfig) :
    (predictionsStep c a).Predictions =
      match c.predictions with
      | some p =>
          match (((p.convert.bind ConvertBlock.speechGenerator).bind
              SpeechGeneratorBlock.defaults).getD {}).VoiceId with
          | some v =>
              if v.isEmpty then some (PredictionsOutput.verbatim p)
              else some (PredictionsOutput.rewritten p v)
          | none => some (PredictionsOutput.verbatim p)
      | none => a.Predictions := by
  unfold predictionsStep
  try dsimp only
  repeat' split
  all_goals rfl

theorem geoStep_error_eq (c : AWSExportsConfig) (a : ResourcesConfig) (e : JSError)
    (h : geoStep c a = Except.error e) : e = geoTypeError := by
  unfold geoStep at h
  repeat' split at h
  all_goals simp_all

theorem geoStep_ok_char (c : AWSExportsConfig) (a : ResourcesConfig) (g : ResourcesConfig)
    (h : geoStep c a = Except.ok g) :
    (c.geo = none ∧ g = a) ∨
      (∃ gb als, c.geo = some gb ∧ gb.amazon_location_service = some als ∧
        g = { a with Geo := some { LocationService := {
          maps := als.maps
          geofenceCollections := als.geofenceCollections
          searchIndices := als.search_indices
          region := als.region } } }) := by
  unfold geoStep at h
  split at h
  · split at h
    · right
      refine ⟨_, _, by assumption, by assumption, ?_⟩
      simp_all
    · simp_all
  · left
    exact ⟨by assumption, by simp_all⟩

theorem geoStep_ok_of (c : AWSExportsConfig) (a : ResourcesConfig)
    (h : ∀ gb, c.geo = some gb → gb.amazon_location_service.isSome) :
    ∃ g, geoStep c a = Except.ok g := by
  rcases hgb : c.geo with _ | gb
  · exact ⟨a, by simp [geoStep, hgb]⟩
  · have hals := h gb hgb
    rcases hals' : gb.amazon_location_service with _ | als
    · rw [hals'] at hals
      simp at hals
    · exact ⟨{ a with Geo := some { LocationService := {
          maps := als.maps
          geofenceCollections := als.geofenceCollections
          searchIndices := als.search_indices
          region := als.region } } }, by simp [geoStep, hgb, hals']⟩

/-! ## Shape of a `parseAWSExports` call -/

theorem parseAWSExports_none (c : AWSExportsConfig) (h : c.aws_project_region = none) :
    parseAWSExports c = (Except.error invalidConfigError, []) := by
  unfold parseAWSExports
  simp [h]

theorem parseAWSExports_some_shape (c : AWSExportsConfig)
    (h : c.aws_project_region ≠ none) :
    parseAWSExports c =
      (match geoStep c (preGeo c) with
       | Except.error e => (Except.error e, apiGraphQLLogs c)
       | Except.ok g =>
           (Except.ok (predictionsStep c (restStep c g)), apiGraphQLLogs c)) := by
  unfold parseAWSExports
  rw [if_neg]
  simpa [Option.isNone_iff_eq_none] using h

theorem parseAWSExports_ok_inv (c : AWSExportsConfig) (out : ResourcesConfig)
    (logs : List String) (h : parseAWSExports c = (Except.ok out, logs)) :
    c.aws_project_region ≠ none ∧ logs = apiGraphQLLogs c ∧
      ∃ g, geoStep c (preGeo c) = Except.ok g ∧
        out = predictionsStep c (restStep c g) := by
  unfold parseAWSExports at h
  split at h
  · simp_all
  · rename_i hr
    refine ⟨by simpa [Option.isNone_iff_eq_none] using hr, ?_⟩
    split at h
    · simp_all
    · rename_i g hg
      obtain ⟨h1, h2⟩ := Prod.mk.injEq .. ▸ h
      exact ⟨h2.symm, g, hg, by simp_all⟩

@[simp] theorem authCognito_loginWith (c : AWSExportsConfig) :
    (authCognito c).loginWith = loginWithOf c := rfl

/-! ## The accumulated configuration before the geo block -/

theorem preGeo_Analytics (c : AWSExportsConfig) :
    (preGeo c).Analytics =
      match c.aws_mobile_analytics_app_id with
      | some appId =>
          if appId.isEmpty then none
          else some { Pinpoint := {
            appId := appId
            region := c.aws_mobile_analytics_app_region } }
      | none => none := by
  simp [preGeo, analyticsStep_Analytics]

theorem preGeo_Notifications (c : AWSExportsConfig) :
    (preGeo c).Notifications =
      match inAppPinpoint c, pushPinpoint c with
      | some pp1, some pp2 =>
          some {
            InAppMessaging := some { Pinpoint := { appId := pp1.appId, region := pp1.region } }
            PushNotification := some { Pinpoint := { appId := pp2.appId, region := pp2.region } } }
      | some pp1, none =>
          some {
            InAppMessaging := some { Pinpoint := { appId := pp1.appId, region := pp1.region } }
            PushNotification := none }
      | none, some pp2 =>
          some {
            InAppMessaging := none
            PushNotification := some { Pinpoint := { appId := pp2.appId, region := pp2.region } } }
      | none, none => none := by
  simp only [preGeo, storageStep_Notifications, oauthStep_Notifications,
    authStep_Notifications, apiGraphQLStep_Notifications, interactionsStep_Notifications,
    notificationsStep_Notifications, analyticsStep_Notifications]
  rcases h1 : inAppPinpoint c with _ | pp1 <;> rcases h2 : pushPinpoint c with _ | pp2 <;> rfl

theorem preGeo_Interactions (c : AWSExportsConfig) :
    (preGeo c).Interactions =
      match c.aws_bots_config with
      | some bots => some { LexV1 := lexV1Entries bots }
      | none => none := by
  simp [preGeo, interactionsStep_Interactions]

theorem preGeo_API (c : AWSExportsConfig) :
    (preGeo c).API =
      match c.aws_appsync_graphqlEndpoint with
      | some endpoint =>
          if endpoint.isEmpty then none
          else some { GraphQL := some (graphQLValue c endpoint), REST := none }
      | none => none := by
  simp [preGeo, apiGraphQLStep_API]

theorem preGeo_Auth (c : AWSExportsConfig) :
    (preGeo c).Auth =
      if authGate c then
        if hasOAuthConfig c then
          some { Cognito := { authCognito c with
            loginWith := { loginWithOf c with oauth := some (oauthValue c) } } }
        else some { Cognito := authCognito c }
      else none := by
  simp only [preGeo, storageStep_Auth, oauthStep_Auth, authStep_Auth,
    apiGraphQLStep_Auth, interactionsStep_Auth, notificationsStep_Auth,
    analyticsStep_Auth]
  by_cases hg : authGate c <;> simp [hg]

theorem preGeo_Storage (c : AWSExportsConfig) :
    (preGeo c).Storage =
      match c.aws_user_files_s3_bucket with
      | some bucket =>
          if bucket.isEmpty then none
          else some { S3 := {
            bucket := bucket
            region := c.aws_user_files_s3_bucket_region
            dangerouslyConnectToHttpEndpointForTesting :=
              c.aws_user_files_s3_dangerously_connect_to_http_endpoint_for_testing } }
      | none => none := by
  simp [preGeo, storageStep_Storage]

theorem preGeo_Geo (c : AWSExportsConfig) : (preGeo c).Geo = none := by
  simp [preGeo]

theorem preGeo_Predictions (c : AWSExportsConfig) : (preGeo c).Predictions = none := by
  simp [preGeo]

/-! ## Sections of a successful call -/

theorem parse_ok_sections (c : AWSExportsConfig) (out : ResourcesConfig)
    (logs : List String) (hok : parseAWSExports c = (Except.ok out, logs)) :
    out.Analytics = (preGeo c).Analytics ∧
    out.Notifications = (preGeo c).Notifications ∧
    out.Interactions = (preGeo c).Interactions ∧
    out.Auth = (preGeo c).Auth ∧
    out.Storage = (preGeo c).Storage := by
  obtain ⟨hr, hlogs, g, hg, rfl⟩ := parseAWSExports_ok_inv c out logs hok
  rcases geoStep_ok_char _ _ _ hg with ⟨hnone, rfl⟩ | ⟨gb, als, hgb, hals, rfl⟩ <;> simp

theorem parse_ok_API (c : AWSExportsConfig) (out : ResourcesConfig)
    (logs : List String) (hok : parseAWSExports c = (Except.ok out, logs)) :
    out.API =
      match c.aws_cloud_logic_custom with
      | some apis => some { (preGeo c).API.getD {} with REST := some (restEntries apis) }
      | none => (preGeo c).API := by
  obtain ⟨hr, hlogs, g, hg, rfl⟩ := parseAWSExports_ok_inv c out logs hok
  have hAPI : g.API = (preGeo c).API := by
    rcases geoStep_ok_char _ _ _ hg with ⟨hnone, rfl⟩ | ⟨gb, als, hgb, hals, rfl⟩ <;> rfl
  simp [restStep_API, hAPI]

theorem parse_ok_Geo_isSome (c : AWSExportsConfig) (out : ResourcesConfig)
    (logs : List String) (hok : parseAWSExports c = (Except.ok out, logs)) :
    out.Geo.isSome = c.geo.isSome := by
  obtain ⟨hr, hlogs, g, hg, rfl⟩ := parseAWSExports_ok_inv c out logs hok
  rcases geoStep_ok_char _ _ _ hg with ⟨hnone, rfl⟩ | ⟨gb, als, hgb, hals, rfl⟩
  · simp [hnone, preGeo_Geo]
  · simp [hgb]

theorem parse_ok_Predictions (c : AWSExportsConfig) (out : ResourcesConfig)
    (logs : List String) (hok : parseAWSExports c = (Except.ok out, logs)) :
    out.Predictions =
      match c.predictions with
      | some p =>
          match (((p.convert.bind ConvertBlock.speechGenerator).bind
              SpeechGeneratorBlock.defaults).getD {}).VoiceId with
          | some v =>
              if v.isEmpty then some (PredictionsOutput.verbatim p)
              else some (PredictionsOutput.rewritten p v)
          | none => some (PredictionsOutput.verbatim p)
      | none => none := by
  obtain ⟨hr, hlogs, g, hg, rfl⟩ := parseAWSExports_ok_inv c out logs hok
  have hgp : g.Predictions = none := by
    rcases geoStep_ok_char _ _ _ hg with ⟨hnone, rfl⟩ | ⟨gb, als, hgb, hals, rfl⟩ <;>
      simp [preGeo_Predictions]
  rw [predictionsStep_Predictions]
  simp [hgp]

/-! ## Claim C1 -/

/-- C1: `parseAWSExports` throws the structured `InvalidConfigError` if and
only if `aws_project_region` is absent as an own property of the input; an
input that has the key with a falsy value does not throw it, and when it is
thrown, it is thrown before any section logic runs (the result is exactly
the error with no logs and no partial output). -/
theorem parseAWSExports_invalidConfigError_iff (config : AWSExportsConfig) :
    ((parseAWSExports config).1 = Except.error invalidConfigError ↔
      config.aws_project_region = none) ∧
    (config.aws_project_region = none →
      parseAWSExports config = (Except.error invalidConfigError, [])) := by
  refine ⟨⟨?_, ?_⟩, fun h => parseAWSExports_none config h⟩
  · intro h
    by_contra hne
    rw [parseAWSExports_some_shape config hne] at h
    rcases hg : geoStep config (preGeo config) with e | g
    · rw [hg] at h
      have he := geoStep_error_eq _ _ _ hg
      rw [he] at h
      simp [invalidConfigError, geoTypeError] at h
    · rw [hg] at h
      simp at h
  · intro h
    rw [parseAWSExports_none config h]

/-- C1 witness: the empty input (no `aws_project_region` own property)
throws exactly the invalid-config error with no logs. -/
theorem parseAWSExports_invalidConfigError_iff_witness :
    parseAWSExports {} = (Except.error invalidConfigError, []) :=
  (parseAWSExports_invalidConfigError_iff {}).2 rfl

/-! ## Claim C2 (corrected): the geo block can raise a TypeError -/

/-- An input that contains the required key but whose `geo` object has no
`amazon_location_service` sub-object. -/
def geoOnlyConfig : AWSExportsConfig :=
  { aws_project_region := some (JSPrim.string "us-east-1"), geo := some {} }

/-- C2 counterexample: `geoOnlyConfig` contains `aws_project_region` as an
own property, yet `parseAWSExports` does not return normally — it raises a
`TypeError` reading `.maps` from the missing `amazon_location_service`. -/
theorem parseAWSExports_not_total :
    geoOnlyConfig.aws_project_region = some (JSPrim.string "us-east-1") ∧
    parseAWSExports geoOnlyConfig = (Except.error geoTypeError, []) := by
  exact ⟨rfl, rfl⟩

/-- C2 (amended): for every input containing `aws_project_region` as an own
property, `parseAWSExports` returns normally — malformed or absent fields
degrade gracefully — except in the single case the counterexample forces:
a present `geo` block lacking its `amazon_location_service` sub-object,
which raises a `TypeError`. -/
theorem parseAWSExports_total_of_geo_wellformed (config : AWSExportsConfig)
    (hr : config.aws_project_region ≠ none)
    (hg : ∀ gb, config.geo = some gb → gb.amazon_location_service.isSome) :
    (parseAWSExports config).1.isOk = true := by
  obtain ⟨g, hgok⟩ := geoStep_ok_of config (preGeo config) hg
  rw [parseAWSExports_some_shape config hr, hgok]
  rfl

/-- An input carrying the required key (with a falsy value) and a
well-formed geo block. -/
def wellformedGeoConfig : AWSExportsConfig :=
  { aws_project_region := some JSPrim.null
    geo := some { amazon_location_service := some {} } }

/-- C2 witness: `wellformedGeoConfig` translates successfully. -/
theorem parseAWSExports_total_of_geo_wellformed_witness :
    (parseAWSExports wellformedGeoConfig).1.isOk = true :=
  parseAWSExports_total_of_geo_wellformed wellformedGeoConfig (by simp [wellformedGeoConfig])
    (by intro gb h; cases h; rfl)

/-! ## Claim C3 (corrected): prototype-chain keys bypass the fallback -/

/-- A legacy input whose auth type names an inherited `Object.prototype`
member. -/
def protoAuthConfigExample : AWSExportsConfig :=
  { aws_project_region := some (JSPrim.string "us-east-1")
    aws_appsync_graphqlEndpoint := some "https://example.com/graphql"
    aws_appsync_authenticationType := some "toString" }

/-- C3 counterexample: `"toString"` is outside the mapping table, yet
`defaultAuthMode` is the truthy value inherited from `Object.prototype`,
not `'iam'`, and no diagnostic log is emitted — refuting the claim's
universal fallback clause for out-of-table values. -/
theorem parseAWSExports_defaultAuthMode_prototype :
    authTypeMapping "toString" = none ∧
    parseAWSExports protoAuthConfigExample =
      (Except.ok { API := some { GraphQL := some {
        endpoint := "https://example.com/graphql"
        defaultAuthMode := AuthModeValue.inherited "toString" } } }, []) ∧
    AuthModeValue.inherited "toString" ≠ AuthModeValue.str "iam" := by
  refine ⟨rfl, rfl, by simp⟩

/-- C3 (amended): with a truthy graphql endpoint, `defaultAuthMode` is the
value of JS property access `authTypeMapping[authenticationType]` with a
nullish fallback to `'iam'`, and the diagnostic log is emitted exactly when
that access yields `undefined`.  The own table is the seven-entry
case-sensitive map of the claim and nothing else; a legacy value outside
the table falls back to `'iam'` with a log only when it is not an own
property name of `Object.prototype` — at names such as `toString` or
`constructor` the access yields the inherited truthy value, which becomes
`defaultAuthMode` with no log.  An absent auth type is coerced to the key
`"undefined"` and falls back with a log. -/
theorem parseAWSExports_defaultAuthMode (config : AWSExportsConfig)
    (out : ResourcesConfig) (logs : List String)
    (hok : parseAWSExports config = (Except.ok out, logs))
    (hep : strTruthy config.aws_appsync_graphqlEndpoint = true) :
    ((out.API.bind APIConfig.GraphQL).map GraphQLConfig.defaultAuthMode =
      some ((authTypeMappingGet config.aws_appsync_authenticationType).getD
        (AuthModeValue.str "iam"))) ∧
    (logs =
      if (authTypeMappingGet config.aws_appsync_authenticationType).isNone then
        [invalidAuthTypeMessage config.aws_appsync_authenticationType]
      else []) ∧
    authTypeMapping "API_KEY" = some "apiKey" ∧
    authTypeMapping "AWS_IAM" = some "iam" ∧
    authTypeMapping "AMAZON_COGNITO_USER_POOLS" = some "userPool" ∧
    authTypeMapping "OPENID_CONNECT" = some "oidc" ∧
    authTypeMapping "NONE" = some "none" ∧
    authTypeMapping "AWS_LAMBDA" = some "lambda" ∧
    authTypeMapping "LAMBDA" = some "lambda" ∧
    (∀ t, t ∉ ["API_KEY", "AWS_IAM", "AMAZON_COGNITO_USER_POOLS", "OPENID_CONNECT",
      "NONE", "AWS_LAMBDA", "LAMBDA"] → authTypeMapping t = none) ∧
    (∀ t s, authTypeMapping t = some s →
      authTypeMappingGet (some t) = some (AuthModeValue.str s)) ∧
    (∀ t, authTypeMapping t = none → objectPrototypeKeys.contains t = false →
      authTypeMappingGet (some t) = none) ∧
    (∀ t, authTypeMapping t = none → objectPrototypeKeys.contains t = true →
      authTypeMappingGet (some t) = some (AuthModeValue.inherited t)) ∧
    authTypeMappingGet none = none := by
  obtain ⟨hr, hlogs, g, hg, hout⟩ := parseAWSExports_ok_inv config out logs hok
  rcases he : config.aws_appsync_graphqlEndpoint with _ | e
  · rw [he] at hep
    simp [strTruthy] at hep
  · rw [he] at hep
    simp only [strTruthy, Bool.not_eq_true'] at hep
    have hapi : (preGeo config).API =
        some { GraphQL := some (graphQLValue config e), REST := none } := by
      rw [preGeo_API, he]
      simp [hep]
    have houtapi : out.API.bind APIConfig.GraphQL = some (graphQLValue config e) := by
      rw [parse_ok_API config out logs hok, hapi]
      rcases hcl : config.aws_cloud_logic_custom with _ | apis <;> simp
    refine ⟨?_, ?_, rfl, rfl, rfl, rfl, rfl, rfl, rfl, ?_, ?_, ?_, ?_, rfl⟩
    · rw [houtapi]
      simp [graphQLValue_defaultAuthMode]
    · rw [hlogs]
      unfold apiGraphQLLogs
      rw [he]
      simp [hep]
    · intro t ht
      unfold authTypeMapping
      repeat' split
      all_goals simp_all
    · intro t s hm
      unfold authTypeMappingGet
      simp [hm]
    · intro t hm hp
      simp at hp
      unfold authTypeMappingGet
      simp [hm, hp]
    · intro t hm hp
      simp at hp
      unfold authTypeMappingGet
      simp [hm, hp]

/-- A legacy input with a graphql endpoint and the AWS_IAM auth type. -/
def authModeConfigExample : AWSExportsConfig :=
  { aws_project_region := some (JSPrim.string "us-east-1")
    aws_appsync_graphqlEndpoint := some "https://example.com/graphql"
    aws_appsync_authenticationType := some "AWS_IAM" }

/-- The translation of `authModeConfigExample`. -/
def authModeOutputExample : ResourcesConfig :=
  { API := some { GraphQL := some {
      endpoint := "https://example.com/graphql"
      defaultAuthMode := AuthModeValue.str "iam" } } }

/-- C3 witness: legacy auth type `AWS_IAM` yields `defaultAuthMode = iam`
with no diagnostic log. -/
theorem parseAWSExports_defaultAuthMode_witness :
    (authModeOutputExample.API.bind APIConfig.GraphQL).map GraphQLConfig.defaultAuthMode =
      some (AuthModeValue.str "iam") ∧ ([] : List String) = [] := by
  have h := parseAWSExports_defaultAuthMode authModeConfigExample authModeOutputExample []
    (by rfl) (by rfl)
  exact ⟨h.1, h.2.1⟩

/-! ## Claim C4 -/

@[simp] theorem oauthValue_providers_isSome (c : AWSExportsConfig) :
    (oauthValue c).providers.isSome = hasSocialProviderConfig c := by
  unfold oauthValue
  by_cases h : hasSocialProviderConfig c <;> simp [h]

/-- C4: the output `loginWith` carries an `oauth` sub-object iff the Auth
section exists and the legacy `oauth` object has at least one own key; the
`providers` key is present under `oauth` iff the legacy social-provider
list is non-empty; and the attachment leaves the `username`/`email`/`phone`
flags exactly as the Auth section computed them. -/
theorem parseAWSExports_oauth_attachment (config : AWSExportsConfig)
    (out : ResourcesConfig) (logs : List String)
    (hok : parseAWSExports config = (Except.ok out, logs)) :
    ((∃ a, out.Auth = some a ∧ a.Cognito.loginWith.oauth.isSome) ↔
      (out.Auth.isSome ∧ hasOAuthConfig config = true)) ∧
    (∀ a, out.Auth = some a →
      (∀ ob, a.Cognito.loginWith.oauth = some ob →
        ob.providers.isSome = hasSocialProviderConfig config) ∧
      a.Cognito.loginWith.username = (loginWithOf config).username ∧
      a.Cognito.loginWith.email = (loginWithOf config).email ∧
      a.Cognito.loginWith.phone = (loginWithOf config).phone) := by
  have hAuth : out.Auth = (preGeo config).Auth := (parse_ok_sections _ _ _ hok).2.2.2.1
  rw [hAuth, preGeo_Auth]
  by_cases hg : authGate config
  · by_cases ho : hasOAuthConfig config
    · simp only [hg, ho, if_true]
      constructor
      · constructor
        · intro _
          exact ⟨rfl, trivial⟩
        · intro _
          exact ⟨_, rfl, rfl⟩
      · intro a ha
        cases ha
        refine ⟨?_, rfl, rfl, rfl⟩
        intro ob hob
        cases hob
        simp
    · simp only [hg, ho, if_true, if_false]
      constructor
      · constructor
        · intro ⟨a, ha, hoauth⟩
          cases ha
          simp [loginWithOf] at hoauth
        · intro ⟨_, hfalse⟩
          exact Bool.noConfusion hfalse
      · intro a ha
        cases ha
        refine ⟨?_, rfl, rfl, rfl⟩
        intro ob hob
        simp [loginWithOf] at hob
  · simp only [hg, if_false]
    constructor
    · constructor
      · intro ⟨a, ha, _⟩
        cases ha
      · intro ⟨hfalse, _⟩
        simp at hfalse
    · intro a ha
      cases ha

/-- A legacy input with a user pool, a non-empty oauth block and one social
provider. -/
def oauthConfigExample : AWSExportsConfig :=
  { aws_project_region := some (JSPrim.string "us-east-1")
    aws_user_pools_id := some "pool"
    oauth := some { keys := ["domain"], domain := some "d" }
    aws_cognito_social_providers := some ["GOOGLE"] }

/-- The `loginWith.oauth` value produced for `oauthConfigExample`. -/
def oauthValueExample : OAuthOutput :=
  { domain := some "d"
    scopes := none
    redirectSignIn := []
    redirectSignOut := []
    responseType := none
    providers := some ["Google"] }

/-- The `Auth` section produced for `oauthConfigExample`. -/
def oauthAuthExample : AuthConfig :=
  { Cognito := {
      identityPoolId := none
      allowGuestAccess := true
      signUpVerificationMethod := none
      userAttributes := []
      userPoolClientId := none
      userPoolId := some "pool"
      mfa := none
      passwordFormat := none
      loginWith := {
        username := true
        email := false
        phone := false
        oauth := some oauthValueExample } } }

/-- The translation of `oauthConfigExample`. -/
def oauthOutputExample : ResourcesConfig :=
  { Auth := some oauthAuthExample }

/-- C4 witness: for `oauthConfigExample` the flags are untouched by the
OAuth attachment and `providers` is present because the social-provider
list is non-empty. -/
theorem parseAWSExports_oauth_attachment_witness :
    oauthAuthExample.Cognito.loginWith.username = (loginWithOf oauthConfigExample).username ∧
    oauthValueExample.providers.isSome = hasSocialProviderConfig oauthConfigExample := by
  have h := parseAWSExports_oauth_attachment oauthConfigExample oauthOutputExample [] (by rfl)
  have h2 := h.2 oauthAuthExample rfl
  exact ⟨h2.2.1, h2.1 oauthValueExample rfl⟩

/-! ## Claim C5 -/

/-- C5: when the legacy `Notifications` block carries both an
in-app-messaging `AWSPinpoint` block and a push `AWSPinpoint` block, the
output `Notifications` holds both `InAppMessaging.Pinpoint` and
`PushNotification.Pinpoint`, each with its own `appId` and `region` — the
spread merge of the push assignment does not overwrite the in-app key. -/
theorem parseAWSExports_notifications_both (config : AWSExportsConfig)
    (out : ResourcesConfig) (logs : List String)
    (a1 r1 a2 r2 : Option String)
    (hnotif : config.Notifications = some {
      InAppMessaging := some { AWSPinpoint := some { appId := a1, region := r1 } }
      Push := some { AWSPinpoint := some { appId := a2, region := r2 } } })
    (hok : parseAWSExports config = (Except.ok out, logs)) :
    out.Notifications = some {
      InAppMessaging := some { Pinpoint := { appId := a1, region := r1 } }
      PushNotification := some { Pinpoint := { appId := a2, region := r2 } } } := by
  have h := (parse_ok_sections _ _ _ hok).2.1
  have hin : inAppPinpoint config = some { appId := a1, region := r1 } := by
    simp [inAppPinpoint, hnotif]
  have hpush : pushPinpoint config = some { appId := a2, region := r2 } := by
    simp [pushPinpoint, hnotif]
  rw [h, preGeo_Notifications, hin, hpush]

/-- A legacy input with both notification channels configured. -/
def bothChannelsConfigExample : AWSExportsConfig :=
  { aws_project_region := some (JSPrim.string "us-east-1")
    Notifications := some {
      InAppMessaging := some { AWSPinpoint := some { appId := some "iam-app", region := some "r1" } }
      Push := some { AWSPinpoint := some { appId := some "push-app", region := some "r2" } } } }

/-- The translation of `bothChannelsConfigExample`. -/
def bothChannelsOutputExample : ResourcesConfig :=
  { Notifications := some {
      InAppMessaging := some { Pinpoint := { appId := some "iam-app", region := some "r1" } }
      PushNotification := some { Pinpoint := { appId := some "push-app", region := some "r2" } } } }

/-- C5 witness: both Pinpoint channels appear, independently populated. -/
theorem parseAWSExports_notifications_both_witness :
    bothChannelsOutputExample.Notifications = some {
      InAppMessaging := some { Pinpoint := { appId := some "iam-app", region := some "r1" } }
      PushNotification := some { Pinpoint := { appId := some "push-app", region := some "r2" } } } :=
  parseAWSExports_notifications_both bothChannelsConfigExample bothChannelsOutputExample []
    (some "iam-app") (some "r1") (some "push-app") (some "r2") (by rfl) (by rfl)

/-! ## Claim C6 -/

/-- C6: whenever an Auth section is produced, `loginWith.email` is true iff
the legacy username-attributes list contains `EMAIL`, `loginWith.phone` is
true iff it contains `PHONE_NUMBER`, and `loginWith.username` is true iff
neither flag is; in particular the list `["EMAIL"]` yields
`{username: false, email: true, phone: false}` and an absent list yields
`{username: true, email: false, phone: false}`. -/
theorem parseAWSExports_loginWith_flags (config : AWSExportsConfig)
    (out : ResourcesConfig) (logs : List String) (a : AuthConfig)
    (hok : parseAWSExports config = (Except.ok out, logs))
    (ha : out.Auth = some a) :
    a.Cognito.loginWith.email = optIncludes config.aws_cognito_username_attributes "EMAIL" ∧
    a.Cognito.loginWith.phone = optIncludes config.aws_cognito_username_attributes "PHONE_NUMBER" ∧
    a.Cognito.loginWith.username =
      !(optIncludes config.aws_cognito_username_attributes "EMAIL" ||
        optIncludes config.aws_cognito_username_attributes "PHONE_NUMBER") ∧
    (config.aws_cognito_username_attributes = some ["EMAIL"] →
      a.Cognito.loginWith.username = false ∧ a.Cognito.loginWith.email = true ∧
        a.Cognito.loginWith.phone = false) ∧
    (config.aws_cognito_username_attributes = none →
      a.Cognito.loginWith.username = true ∧ a.Cognito.loginWith.email = false ∧
        a.Cognito.loginWith.phone = false) := by
  have hAuth : out.Auth = (preGeo config).Auth := (parse_ok_sections _ _ _ hok).2.2.2.1
  rw [hAuth, preGeo_Auth] at ha
  by_cases hg : authGate config
  · rw [if_pos hg] at ha
    by_cases ho : hasOAuthConfig config
    · rw [if_pos ho] at ha
      cases ha
      refine ⟨rfl, rfl, rfl, fun hattr => ?_, fun hattr => ?_⟩ <;>
        simp [loginWithOf, loginWithEmailEnabled, loginWithPhoneEnabled, optIncludes, hattr]
    · rw [if_neg ho] at ha
      cases ha
      refine ⟨rfl, rfl, rfl, fun hattr => ?_, fun hattr => ?_⟩ <;>
        simp [loginWithOf, loginWithEmailEnabled, loginWithPhoneEnabled, optIncludes, hattr]
  · rw [if_neg hg] at ha
    cases ha

/-- A legacy input with a user pool and username attributes `["EMAIL"]`. -/
def emailLoginConfigExample : AWSExportsConfig :=
  { aws_project_region := some (JSPrim.string "us-east-1")
    aws_user_pools_id := some "pool"
    aws_cognito_username_attributes := some ["EMAIL"] }

/-- The `Auth` section produced for `emailLoginConfigExample`. -/
def emailLoginAuthExample : AuthConfig :=
  { Cognito := {
      identityPoolId := none
      allowGuestAccess := true
      signUpVerificationMethod := none
      userAttributes := []
      userPoolClientId := none
      userPoolId := some "pool"
      mfa := none
      passwordFormat := none
      loginWith := {
        username := false
        email := true
        phone := false } } }

/-- C6 witness: username attributes `["EMAIL"]` produce
`{username: false, email: true, phone: false}`. -/
theorem parseAWSExports_loginWith_flags_witness :
    emailLoginAuthExample.Cognito.loginWith.username = false ∧
    emailLoginAuthExample.Cognito.loginWith.email = true ∧
    emailLoginAuthExample.Cognito.loginWith.phone = false :=
  (parseAWSExports_loginWith_flags emailLoginConfigExample
    { Auth := some emailLoginAuthExample } [] emailLoginAuthExample
    (by rfl) rfl).2.2.2.1 rfl

/-! ## Claim C7 -/

/-- C7: an input holding only the required key translates to the empty
configuration (no optional section present, no log); in general every
section of a successful translation is present iff its trigger fields are
present and truthy: Analytics (analytics app id), Notifications (either
channel pinpoint block), Interactions (bot array), API (graphql endpoint or
cloud-logic array), Auth (identity-pool id or user-pool id), Storage (bucket
name), Geo (geo block), Predictions (predictions block). -/
theorem parseAWSExports_section_presence :
    (∀ v, parseAWSExports { aws_project_region := some v } = (Except.ok {}, [])) ∧
    (∀ config out logs, parseAWSExports config = (Except.ok out, logs) →
      out.Analytics.isSome = strTruthy config.aws_mobile_analytics_app_id ∧
      out.Notifications.isSome =
        ((inAppPinpoint config).isSome || (pushPinpoint config).isSome) ∧
      out.Interactions.isSome = config.aws_bots_config.isSome ∧
      out.API.isSome =
        (strTruthy config.aws_appsync_graphqlEndpoint
          || config.aws_cloud_logic_custom.isSome) ∧
      out.Auth.isSome =
        (strTruthy config.aws_cognito_identity_pool_id
          || strTruthy config.aws_user_pools_id) ∧
      out.Storage.isSome = strTruthy config.aws_user_files_s3_bucket ∧
      out.Geo.isSome = config.geo.isSome ∧
      out.Predictions.isSome = config.predictions.isSome) := by
  constructor
  · intro v
    rfl
  · intro config out logs hok
    obtain ⟨hA, hN, hI, hAu, hS⟩ := parse_ok_sections _ _ _ hok
    refine ⟨?_, ?_, ?_, ?_, ?_, ?_, ?_, ?_⟩
    · rw [hA, preGeo_Analytics]
      rcases h : config.aws_mobile_analytics_app_id with _ | appId
      · simp [strTruthy]
      · simp only [strTruthy]
        split <;> simp_all
    · rw [hN, preGeo_Notifications]
      rcases h1 : inAppPinpoint config with _ | pp1 <;>
        rcases h2 : pushPinpoint config with _ | pp2 <;> simp
    · rw [hI, preGeo_Interactions]
      rcases h : config.aws_bots_config with _ | bots <;> simp
    · rw [parse_ok_API _ _ _ hok]
      rcases hcl : config.aws_cloud_logic_custom with _ | apis
      · rw [preGeo_API]
        rcases he : config.aws_appsync_graphqlEndpoint with _ | e
        · simp [strTruthy]
        · simp only [strTruthy]
          split <;> simp_all
      · simp
    · rw [hAu, preGeo_Auth]
      by_cases hg : authGate config
      · rw [if_pos hg]
        rw [show (strTruthy config.aws_cognito_identity_pool_id
          || strTruthy config.aws_user_pools_id) = authGate config from rfl, hg]
        by_cases ho : hasOAuthConfig config <;> simp [ho]
      · rw [if_neg hg]
        rw [show (strTruthy config.aws_cognito_identity_pool_id
          || strTruthy config.aws_user_pools_id) = authGate config from rfl]
        simp_all
    · rw [hS, preGeo_Storage]
      rcases h : config.aws_user_files_s3_bucket with _ | bucket
      · simp [strTruthy]
      · simp only [strTruthy]
        split <;> simp_all
    · exact parse_ok_Geo_isSome _ _ _ hok
    · rw [parse_ok_Predictions _ _ _ hok]
      rcases h : config.predictions with _ | p
      · simp
      · simp only [Option.isSome_some]
        split
        · split <;> simp
        · simp

/-! ## Claim C8 -/

/-- C8: the OAuth extractor copies `scope` to `scopes` verbatim (no
splitting) and turns each redirect field into the comma-split list of its
components, the empty list when the field is absent; `'a,b,c'` splits into
`['a','b','c']`. -/
theorem getOAuthConfig_spec (b : OAuthBlock) :
    (getOAuthConfig b).scopes = b.scope ∧
    (∀ s, b.redirectSignIn = some s → (getOAuthConfig b).redirectSignIn = jsSplit s ',') ∧
    (b.redirectSignIn = none → (getOAuthConfig b).redirectSignIn = []) ∧
    (∀ s, b.redirectSignOut = some s → (getOAuthConfig b).redirectSignOut = jsSplit s ',') ∧
    (b.redirectSignOut = none → (getOAuthConfig b).redirectSignOut = []) ∧
    getRedirectUrl (some "a,b,c") = ["a", "b", "c"] := by
  refine ⟨rfl, ?_, ?_, ?_, ?_, by rfl⟩ <;>
    first
      | exact fun s h => by simp [getOAuthConfig, getRedirectUrl, h]
      | exact fun h => by simp [getOAuthConfig, getRedirectUrl, h]

/-- An oauth block whose sign-in redirect is the comma-separated string. -/
def oauthBlockExample : OAuthBlock :=
  { keys := ["redirectSignIn"], redirectSignIn := some "a,b,c" }

/-- C8 witness: the extractor splits `'a,b,c'` into `['a','b','c']`. -/
theorem getOAuthConfig_spec_witness :
    (getOAuthConfig oauthBlockExample).redirectSignIn = ["a", "b", "c"] :=
  (getOAuthConfig_spec oauthBlockExample).2.1 "a,b,c" rfl

/-! ## Claim C9 -/

theorem char_ofNat_toNat_of_valid {n : Nat} (h : n.isValidChar) :
    (Char.ofNat n).toNat = n := by
  rw [Char.ofNat, dif_pos h]
  rfl

/-- Lower-casing then upper-casing a character is upper-casing it
(basic-latin case mapping). -/
theorem char_toUpper_toLower (c : Char) : c.toLower.toUpper = c.toUpper := by
  by_cases h : c.toNat ≥ 65 ∧ c.toNat ≤ 90
  · have hv : (c.toNat + 32).isValidChar := Or.inl (by omega)
    have h1 : c.toLower = Char.ofNat (c.toNat + 32) := by
      unfold Char.toLower
      rw [if_pos h]
    have h2 : c.toLower.toNat = c.toNat + 32 := by
      rw [h1]
      exact char_ofNat_toNat_of_valid hv
    have h3 : c.toLower.toUpper = Char.ofNat (c.toLower.toNat - 32) := by
      unfold Char.toUpper
      rw [if_pos]
      rw [h2]
      omega
    rw [h3, h2]
    have h4 : c.toNat + 32 - 32 = c.toNat := by omega
    rw [h4, Char.ofNat_toNat]
    unfold Char.toUpper
    rw [if_neg]
    omega
  · have h1 : c.toLower = c := by
      unfold Char.toLower
      rw [if_neg h]
    rw [h1]

/-- Title case as the specification describes it: the first character
upper-cased, all remaining characters lower-cased. -/
def titleCaseSpec (s : String) : String :=
  match s.data with
  | [] => ""
  | c :: cs => ⟨Char.toUpper c :: cs.map Char.toLower⟩

/-- C9: the social-provider normalizer maps every entry to title case
(first character upper-cased, remaining characters lower-cased), preserving
order and length with no deduplication; `['GOOGLE','FACEBOOK']` maps to
`['Google','Facebook']`. -/
theorem parseSocialProviders_spec (ps : List String) :
    parseSocialProviders ps = ps.map titleCaseSpec ∧
    (parseSocialProviders ps).length = ps.length ∧
    parseSocialProviders ["GOOGLE", "FACEBOOK"] = ["Google", "Facebook"] := by
  have hpt : ∀ s : String,
      (match (jsToLower s).data with
       | [] => ""
       | c :: cs => (⟨Char.toUpper c :: cs⟩ : String)) = titleCaseSpec s := by
    intro s
    unfold titleCaseSpec
    show (match s.data.map Char.toLower with
      | [] => ""
      | c :: cs => (⟨Char.toUpper c :: cs⟩ : String)) = _
    cases h : s.data with
    | nil => rfl
    | cons c cs =>
        show (⟨(Char.toLower c).toUpper :: cs.map Char.toLower⟩ : String) = _
        rw [char_toUpper_toLower]
  have hmap : ∀ l : List String, parseSocialProviders l = l.map titleCaseSpec := by
    intro l
    unfold parseSocialProviders
    induction l with
    | nil => rfl
    | cons p t ih =>
        simp only [List.map_cons]
        rw [ih]
        exact congrArg (fun x => x :: t.map titleCaseSpec) (hpt p)
  refine ⟨hmap ps, ?_, ?_⟩
  · rw [hmap ps]
    exact List.length_map ps titleCaseSpec
  · rw [hmap ["GOOGLE", "FACEBOOK"]]
    rfl

/-! ## Claim C10 -/

/-- C10: a present-but-empty redirect string yields the one-element list
`['']`, not the empty list — only an absent (nullish) redirect value yields
`[]`, because the guard in `getRedirectUrl` is a nullish check, not a
truthiness check. -/
theorem getRedirectUrl_empty_string :
    getRedirectUrl (some "") = [""] ∧ ([""] : List String) ≠ [] ∧
      getRedirectUrl none = [] := by
  refine ⟨rfl, by simp, rfl⟩

/-- A legacy input with only the required key and a storage bucket. -/
def storageConfigExample : AWSExportsConfig :=
  { aws_project_region := some (JSPrim.string "us-east-1")
    aws_user_files_s3_bucket := some "bkt" }

/-- The translation of `storageConfigExample`. -/
def storageOutputExample : ResourcesConfig :=
  { Storage := some { S3 := { bucket := "bkt" } } }

/-- C7 witness: the minimal input translates to the empty configuration,
and for `storageConfigExample` the Storage section is present exactly
because its bucket trigger is truthy. -/
theorem parseAWSExports_section_presence_witness :
    parseAWSExports { aws_project_region := some (JSPrim.string "us-east-1") } =
      (Except.ok {}, []) ∧
    storageOutputExample.Storage.isSome =
      strTruthy storageConfigExample.aws_user_files_s3_bucket :=
  ⟨parseAWSExports_section_presence.1 (JSPrim.string "us-east-1"),
   (parseAWSExports_section_presence.2 storageConfigExample storageOutputExample []
     (by rfl)).2.2.2.2.2.1⟩
